import Mathlib

/-!
RemoteLed: a BLE peripheral that switches a status LED (Chapter13, `main.c`)

A shallow embedding of `src/main.c`.  The program state is an explicit record;
every function of the source is a function on that record.  The vendor BLE
stack, the UART and the LED pin are external: calls made on the BLE stack are
appended to a trace (`State.ble`), text sent to the UART is appended to
`State.serial`, and the level last written to the LED pin is `State.statusLed`.

Bytes (`uint8_t`) are natural numbers; no arithmetic is done on them, they are
only copied and compared.  Theorems that quantify over bytes quantify over all
natural numbers, which covers `0..255`.

The write callback copies twice as many bytes as were written (line 207), so a
write of two bytes stores two bytes past the end of `bleCommandValue`.  What
those bytes hit depends on the build; the state records where the build put the
flag `bleDataWritten` (`State.flagOffset`), and the callback overwrites the flag
when the copy reaches it.
-/

namespace RemoteLed

/-! ## Constants (lines 15-51) -/

/-- Line 15: `BROADCAST_NAME[] = "RemoteLed"`. -/
def BROADCAST_NAME : String := "RemoteLed"

/-- Line 18: `customServiceUuid = 0x1815`. -/
def customServiceUuid : Nat := 0x1815

/-- Line 21: `uuid16_list[] = { customServiceUuid }`. -/
def uuid16_list : List Nat := [customServiceUuid]

/-- Line 24: `characteristicLength = 2`. -/
def characteristicLength : Nat := 2

/-- Line 27: `commandCharacteristicUuid = 0x2A56`. -/
def commandCharacteristicUuid : Nat := 0x2A56

/-- Line 30: `responseCharacteristicUuid = 0x2A57`. -/
def responseCharacteristicUuid : Nat := 0x2A57

/-- Line 34. -/
def bleCommandFooterPosition : Nat := 1

/-- Line 35. -/
def bleCommandDataPosition : Nat := 0

/-- Line 37. -/
def bleCommandFooter : Nat := 1

/-- Line 39. -/
def bleCommandLedOn : Nat := 1

/-- Line 40. -/
def bleCommandLedOff : Nat := 2

/-- Line 43. -/
def bleResponseFooterPosition : Nat := 1

/-- Line 44. -/
def bleResponseDataPosition : Nat := 0

/-- Line 46 (defined in the source, used nowhere). -/
def bleResponseErrorFooter : Nat := 0

/-- Line 47. -/
def bleResponseConfirmationFooter : Nat := 1

/-- Line 49 (defined in the source, used nowhere). -/
def bleResponseLedError : Nat := 0

/-- Line 50. -/
def bleResponseLedOn : Nat := 1

/-- Line 51. -/
def bleResponseLedOff : Nat := 2

/-- The value of `sizeof(bleCommandValue)` (line 207): the array of line 59 has
`characteristicLength` elements of one byte each. -/
def sizeofBleCommandValue : Nat := characteristicLength * 1

/-- Pin level that lights the LED: the level written in the branch that logs
"Led on" (line 141). -/
def ledOn : Nat := 0

/-- Pin level that puts the LED out: the level written in the branch that logs
"led off" (line 146). -/
def ledOff : Nat := 1

/-- The value of `BLE_ERROR_NONE` in the BLE API headers (not part of the
repository). -/
def BLE_ERROR_NONE : Nat := 0

/-- The value of `BLE::DEFAULT_INSTANCE` in the BLE API headers (not part of the
repository). -/
def DEFAULT_INSTANCE : Nat := 0

/-! ## Data model -/

/-- The advertising fields used at lines 190 and 192. -/
inductive AdvDataType where
  | COMPLETE_LOCAL_NAME
  | COMPLETE_LIST_16BIT_SERVICE_IDS
  deriving DecidableEq, Repr

/-- A call made on the vendor BLE stack, with the arguments that the source
passes. -/
inductive BleCall where
  /-- Line 177: `ble.addService(customService)`: service UUID and the UUIDs of
  its characteristics (lines 109-110). -/
  | addService (uuid : Nat) (characteristics : List Nat)
  /-- Line 180: `ble.gattServer().onDataWritten(onDataWrittenCallback)`. -/
  | onDataWritten
  /-- Line 183: `ble.gap().onDisconnection(onCentralDisconnected)`. -/
  | onDisconnection
  /-- Lines 186-188: the flags `BREDR_NOT_SUPPORTED | LE_GENERAL_DISCOVERABLE`. -/
  | accumulateAdvertisingFlags
  /-- Lines 190 and 192: a field, its bytes and the size passed. -/
  | accumulateAdvertisingPayload (field : AdvDataType) (bytes : List Nat) (size : Nat)
  /-- Line 194: `setAdvertisingType(ADV_CONNECTABLE_UNDIRECTED)`. -/
  | setAdvertisingTypeConnectableUndirected
  /-- Line 196: `setAdvertisingInterval(1000)`. -/
  | setAdvertisingInterval (ms : Nat)
  /-- Lines 198 and 223: `ble.gap().startAdvertising()`. -/
  | startAdvertising
  /-- Lines 216-219: `gattServer().write(handle, bytes, size)`, the `size` bytes
  read from the buffer. -/
  | write (handle : Nat) (bytes : List Nat)
  deriving DecidableEq, Repr

/-- The value handles that the stack assigns to the two characteristics
(`commandCharacteristic.getValueHandle()`, line 205, and
`responseCharacteristic.getValueHandle()`, line 217).  They are fixed by the
stack when the service is added, so they are a parameter of the model. -/
structure GattHandles where
  commandCharacteristic : Nat
  responseCharacteristic : Nat
  deriving DecidableEq, Repr

/-- The fields of `GattWriteCallbackParams` that the source reads (lines
205-207).  `data i` is the byte at address `params->data + i`: for `i < len` it
is a byte of the value the Central wrote, for `i ≥ len` it is whatever the
memory after that value holds. -/
structure GattWriteCallbackParams where
  handle : Nat
  data : Nat → Nat
  len : Nat

/-- The fields of `BLE::InitializationCompleteCallbackContext` that the source
reads (lines 161-170): `params->error` and `params->ble.getInstanceID()`. -/
structure InitializationCompleteCallbackContext where
  error : Nat
  instanceID : Nat
  deriving DecidableEq, Repr

/-- The program state.

* `statusLed`: the level last written to the LED pin (line 10, lines 141, 146).
* `bleDataWritten`: the flag of line 56.
* `bleCommandValue i`: the byte at address `bleCommandValue + i`.  Indices `0`
  and `1` are the array of line 59; larger indices are the memory that follows
  the array, which `memcpy` at line 207 writes whenever it copies more than two
  bytes, that is for every write of two bytes or more.
* `flagOffset`: where the build places `bleDataWritten` relative to the array:
  `some k` when the flag is the byte at address `bleCommandValue + k` (gcc at
  `-O1`, `-Os` and `-O2` gives `k = 2`), `none` when the flag is not in the
  memory that follows the array (gcc at `-O0` puts it in front).  The linker
  fixes it; no operation changes it.  Where the flag is such a byte, the field
  `bleDataWritten` is its value.  The LED object is taken to lie outside the
  two bytes after the array, which is as far as a write of two bytes makes
  `memcpy` reach.
* `baud`: the rate set by `serial.baud` (line 116), if any.
* `serial`: the texts printed on the UART, oldest first.
* `ble`: the calls made on the BLE stack, oldest first. -/
structure State where
  statusLed : Nat
  bleDataWritten : Bool
  bleCommandValue : Nat → Nat
  flagOffset : Option Nat
  baud : Option Nat
  serial : List String
  ble : List BleCall

/-! ## Operations -/

/-- `serial.printf` with the text already formatted. -/
def State.printf (s : State) (text : String) : State :=
  { s with serial := s.serial ++ [text] }

/-- A call on the BLE stack. -/
def State.call (s : State) (c : BleCall) : State :=
  { s with ble := s.ble ++ [c] }

/-- The text that `%x` prints for a value. -/
def hexString (n : Nat) : String :=
  String.mk (Nat.toDigits 16 n)

/-- `memcpy(dest, src, n)` on two memory regions addressed from their first
byte: the first `n` bytes of `dest` become those of `src`. -/
def memcpy (dest src : Nat → Nat) (n : Nat) : Nat → Nat :=
  fun i => if i < n then src i else dest i

/-- The value of `bleDataWritten` once `memcpy(bleCommandValue, src, n)` has run
on a flag that held `flag`: when the flag is the byte at offset `k` behind the
array and `n` bytes reach it, it holds the byte `src k`, which reads as true
exactly when it is not zero; otherwise it is untouched. -/
def flagAfterMemcpy (flagOffset : Option Nat) (src : Nat → Nat) (n : Nat) (flag : Bool) :
    Bool :=
  match flagOffset with
  | some k => if characteristicLength ≤ k ∧ k < n then decide (src k ≠ 0) else flag
  | none => flag

/-- The state when `main` is entered: the initialisers of lines 10, 56 and 59.
`flagOffset` is the place of the flag in the build (see `State`) and `ram` is
the content of the memory that follows `bleCommandValue`. -/
def initialState (flagOffset : Option Nat) (ram : Nat → Nat) : State where
  statusLed := 0
  bleDataWritten := false
  bleCommandValue := fun i => if i < characteristicLength then 0 else ram i
  flagOffset := flagOffset
  baud := none
  serial := []
  ble := []

/-- Lines 211-220. The local buffer `responseValue` is not initialised in the
source; both of its bytes are assigned before it is read. -/
def sendBleResponse (h : GattHandles) (ledState : Nat) (s : State) : State :=
  let s1 := s.printf "writing response\r\n"
  let responseValue0 := List.replicate characteristicLength 0
  let responseValue1 := responseValue0.set bleResponseFooterPosition bleResponseConfirmationFooter
  let responseValue2 := responseValue1.set bleResponseDataPosition ledState
  s1.call (BleCall.write h.responseCharacteristic (responseValue2.take characteristicLength))

/-- Lines 203-209.  Line 206 sets the flag, then line 207 copies
`sizeof(bleCommandValue) * params->len` bytes, twice the length of the write,
to the two-byte array: a write of two bytes stores four bytes, two of them past
the end of the array, and where the flag is one of those bytes it is
overwritten with the byte found after the written value. -/
def onDataWrittenCallback (h : GattHandles) (params : GattWriteCallbackParams) (s : State) :
    State :=
  let s1 := s.printf "command written"
  if params.handle = h.commandCharacteristic then
    let s2 := { s1 with bleDataWritten := true }
    let n := sizeofBleCommandValue * params.len
    { s2 with
      bleCommandValue := memcpy s2.bleCommandValue params.data n
      bleDataWritten := flagAfterMemcpy s2.flagOffset params.data n s2.bleDataWritten }
  else
    s1

/-- Lines 222-225. -/
def onCentralDisconnected (s : State) : State :=
  (s.call BleCall.startAdvertising).printf "Central disconnected\r\n"

/-- Lines 160-201. -/
def onBluetoothInitialized (params : InitializationCompleteCallbackContext) (s : State) :
    State :=
  if params.error ≠ BLE_ERROR_NONE then
    s
  else if params.instanceID ≠ DEFAULT_INSTANCE then
    s
  else
    let s1 := s.printf "Describing Peripheral..."
    let s2 := s1.call
      (BleCall.addService customServiceUuid
        [commandCharacteristicUuid, responseCharacteristicUuid])
    let s3 := s2.call BleCall.onDataWritten
    let s4 := s3.call BleCall.onDisconnection
    let s5 := s4.call BleCall.accumulateAdvertisingFlags
    let s6 := s5.call
      (BleCall.accumulateAdvertisingPayload AdvDataType.COMPLETE_LOCAL_NAME
        (BROADCAST_NAME.toList.map Char.toNat ++ [0]) (BROADCAST_NAME.length + 1))
    let s7 := s6.call
      (BleCall.accumulateAdvertisingPayload AdvDataType.COMPLETE_LIST_16BIT_SERVICE_IDS
        (uuid16_list.flatMap fun u => [u % 256, u / 256]) (2 * uuid16_list.length))
    let s8 := s7.call BleCall.setAdvertisingTypeConnectableUndirected
    let s9 := s8.call (BleCall.setAdvertisingInterval 1000)
    let s10 := s9.call BleCall.startAdvertising
    s10.printf " done\r\n"

/-- Lines 116-124: `main` up to the first test of the `while (1)` loop.  The
stack answers `ble.init` by calling `onBluetoothInitialized` with `params`. -/
def mainStartup (params : InitializationCompleteCallbackContext) (flagOffset : Option Nat)
    (ram : Nat → Nat) : State :=
  let s0 := initialState flagOffset ram
  let s1 := { s0 with baud := some 9600 }
  let s2 := s1.printf "Starting LedRemote\r\n"
  onBluetoothInitialized params s2

/-- Lines 131-133: the loop that prints the bytes of the command. -/
def printCommand (s : State) : State :=
  (List.range characteristicLength).foldl
    (fun acc i => acc.printf ("0x" ++ hexString (acc.bleCommandValue i) ++ " ")) s

/-- Lines 127-154: one pass through the body of the `while (1)` loop, up to the
blocking `ble.waitForEvent()` of line 155 (during which the stack runs the
callbacks). -/
def mainLoopIteration (h : GattHandles) (s : State) : State :=
  if s.bleDataWritten then
    let s1 := { s with bleDataWritten := false }
    let s2 := s1.printf "responding to command\r\n"
    let s3 := printCommand s2
    let s4 := s3.printf "\r\n"
    if s4.bleCommandValue bleCommandFooterPosition = bleCommandFooter then
      let s5 := s4.printf "command in footer\r\n"
      if s5.bleCommandValue bleCommandDataPosition = bleCommandLedOn then
        let s6 := s5.printf "Led on\r\n"
        let s7 := { s6 with statusLed := 0 }
        sendBleResponse h bleResponseLedOn s7
      else if s5.bleCommandValue bleCommandDataPosition = bleCommandLedOff then
        let s6 := s5.printf "led off\r\n"
        let s7 := { s6 with statusLed := 1 }
        sendBleResponse h bleResponseLedOff s7
      else
        s5.printf "Unknown command\r\n"
    else
      s4
  else
    s

/-- The responses sent so far: the byte strings of the `write` calls made on
the BLE stack, oldest first. -/
def responses (s : State) : List (List Nat) :=
  s.ble.filterMap fun c =>
    match c with
    | BleCall.write _ bytes => some bytes
    | _ => none

/-- The number of `startAdvertising` requests made so far. -/
def advertisingRequests (s : State) : Nat :=
  s.ble.count BleCall.startAdvertising

/-! ## Concrete inputs used by the closed statements -/

/-- Sample value handles. -/
def sampleHandles : GattHandles := ⟨13, 16⟩

/-- A successful initialisation of the default BLE instance. -/
def sampleInit : InitializationCompleteCallbackContext := ⟨BLE_ERROR_NONE, DEFAULT_INSTANCE⟩

/-- Memory that holds zero everywhere. -/
def zeroRam : Nat → Nat := fun _ => 0

/-- A write to the command characteristic of `sampleHandles` whose value is
`bytes`; the memory after the value holds `after` in every byte. -/
def sampleWrite (bytes : List Nat) (after : Nat) : GattWriteCallbackParams where
  handle := sampleHandles.commandCharacteristic
  data := fun i => bytes.getD i after
  len := bytes.length

/-- The place of the flag in an optimised gcc build: right behind the array. -/
def flagBehindArray : Option Nat := some 2

/-- A state with the command `[code, footer]` pending and the LED pin at `led`,
in a build with the flag right behind the array. -/
def samplePending (led code footer : Nat) : State where
  statusLed := led
  bleDataWritten := true
  bleCommandValue := fun i => [code, footer].getD i 0
  flagOffset := flagBehindArray
  baud := some 9600
  serial := []
  ble := []

/-- The state after start-up, a write of `[2,1]` and one pass of the loop body,
in a build with the flag right behind the array; the byte after the written
value is 1, so the flag stays set and the command is processed: the LED is out
and the command memory holds `[2,1]`. -/
def stateAfterLedOff : State :=
  mainLoopIteration sampleHandles
    (onDataWrittenCallback sampleHandles (sampleWrite [2, 1] 1)
      (mainStartup sampleInit flagBehindArray zeroRam))

/-! ## Auxiliary lemmas -/

section Aux

variable (h : GattHandles) (s : State)

@[simp] theorem printf_statusLed (t : String) : (s.printf t).statusLed = s.statusLed := rfl
@[simp] theorem printf_bleDataWritten (t : String) :
    (s.printf t).bleDataWritten = s.bleDataWritten := rfl
@[simp] theorem printf_bleCommandValue (t : String) :
    (s.printf t).bleCommandValue = s.bleCommandValue := rfl
@[simp] theorem printf_ble (t : String) : (s.printf t).ble = s.ble := rfl
@[simp] theorem call_statusLed (c : BleCall) : (s.call c).statusLed = s.statusLed := rfl
@[simp] theorem call_bleDataWritten (c : BleCall) :
    (s.call c).bleDataWritten = s.bleDataWritten := rfl
@[simp] theorem call_bleCommandValue (c : BleCall) :
    (s.call c).bleCommandValue = s.bleCommandValue := rfl
@[simp] theorem call_ble (c : BleCall) : (s.call c).ble = s.ble ++ [c] := rfl

/-- The printing loop runs twice, once per byte of the command. -/
theorem printCommand_eq :
    printCommand s =
      (s.printf ("0x" ++ hexString (s.bleCommandValue 0) ++ " ")).printf
        ("0x" ++ hexString (s.bleCommandValue 1) ++ " ") := rfl

@[simp] theorem printCommand_statusLed : (printCommand s).statusLed = s.statusLed := rfl
@[simp] theorem printCommand_bleDataWritten :
    (printCommand s).bleDataWritten = s.bleDataWritten := rfl
@[simp] theorem printCommand_bleCommandValue :
    (printCommand s).bleCommandValue = s.bleCommandValue := rfl
@[simp] theorem printCommand_ble : (printCommand s).ble = s.ble := rfl

@[simp] theorem sendBleResponse_statusLed (c : Nat) :
    (sendBleResponse h c s).statusLed = s.statusLed := rfl
@[simp] theorem sendBleResponse_bleDataWritten (c : Nat) :
    (sendBleResponse h c s).bleDataWritten = s.bleDataWritten := rfl
@[simp] theorem sendBleResponse_bleCommandValue (c : Nat) :
    (sendBleResponse h c s).bleCommandValue = s.bleCommandValue := rfl
@[simp] theorem sendBleResponse_ble (c : Nat) :
    (sendBleResponse h c s).ble =
      s.ble ++ [BleCall.write h.responseCharacteristic [c, bleResponseConfirmationFooter]] := rfl

end Aux

/-- The effect of one pass of the loop body on the LED, the flag, the command
memory and the BLE trace, by cases on the pending command. -/
theorem mainLoopIteration_cases (h : GattHandles) (s : State) :
    (s.bleDataWritten = false ∧ mainLoopIteration h s = s) ∨
    (s.bleDataWritten = true ∧
      (mainLoopIteration h s).bleDataWritten = false ∧
      (mainLoopIteration h s).bleCommandValue = s.bleCommandValue ∧
      ((s.bleCommandValue 1 = 1 ∧ s.bleCommandValue 0 = 1 ∧
          (mainLoopIteration h s).statusLed = 0 ∧
          (mainLoopIteration h s).ble =
            s.ble ++ [BleCall.write h.responseCharacteristic [1, 1]]) ∨
       (s.bleCommandValue 1 = 1 ∧ s.bleCommandValue 0 = 2 ∧
          (mainLoopIteration h s).statusLed = 1 ∧
          (mainLoopIteration h s).ble =
            s.ble ++ [BleCall.write h.responseCharacteristic [2, 1]]) ∨
       ((s.bleCommandValue 1 ≠ 1 ∨ (s.bleCommandValue 0 ≠ 1 ∧ s.bleCommandValue 0 ≠ 2)) ∧
          (mainLoopIteration h s).statusLed = s.statusLed ∧
          (mainLoopIteration h s).ble = s.ble))) := by
  cases hw : s.bleDataWritten with
  | false => left; simp [mainLoopIteration, hw]
  | true =>
    right
    by_cases hf : s.bleCommandValue 1 = 1
    · by_cases h1 : s.bleCommandValue 0 = 1
      · simp [mainLoopIteration, hw, hf, h1, bleCommandFooterPosition, bleCommandFooter,
          bleCommandDataPosition, bleCommandLedOn, bleResponseLedOn,
          bleResponseConfirmationFooter]
      · by_cases h2 : s.bleCommandValue 0 = 2
        · simp [mainLoopIteration, hw, hf, h2, bleCommandFooterPosition, bleCommandFooter,
            bleCommandDataPosition, bleCommandLedOn, bleCommandLedOff, bleResponseLedOff,
            bleResponseConfirmationFooter]
        · simp [mainLoopIteration, hw, hf, h1, h2, bleCommandFooterPosition, bleCommandFooter,
            bleCommandDataPosition, bleCommandLedOn, bleCommandLedOff]
    · simp [mainLoopIteration, hw, hf, bleCommandFooterPosition, bleCommandFooter]

/-- A write callback leaves the LED and the BLE trace alone. -/
theorem onDataWrittenCallback_frame (h : GattHandles) (p : GattWriteCallbackParams)
    (s : State) :
    (onDataWrittenCallback h p s).statusLed = s.statusLed ∧
      (onDataWrittenCallback h p s).ble = s.ble := by
  unfold onDataWrittenCallback
  split <;> simp

/-- A write of `len` bytes to the command characteristic copies
`sizeofBleCommandValue * len` bytes and leaves the flag set unless the copy
reaches it. -/
theorem onDataWrittenCallback_command (h : GattHandles) (p : GattWriteCallbackParams)
    (s : State) (hh : p.handle = h.commandCharacteristic) :
    (onDataWrittenCallback h p s).bleDataWritten =
        flagAfterMemcpy s.flagOffset p.data (2 * p.len) true ∧
      (onDataWrittenCallback h p s).bleCommandValue =
        memcpy s.bleCommandValue p.data (2 * p.len) := by
  simp [onDataWrittenCallback, hh, sizeofBleCommandValue, characteristicLength, State.printf]

/-- No write moves the flag to another place. -/
theorem onDataWrittenCallback_flagOffset (h : GattHandles) (p : GattWriteCallbackParams)
    (s : State) : (onDataWrittenCallback h p s).flagOffset = s.flagOffset := by
  unfold onDataWrittenCallback
  split <;> rfl

/-- A copy of at most two bytes does not reach the flag. -/
theorem flagAfterMemcpy_of_le (o : Option Nat) (src : Nat → Nat) (n : Nat) (flag : Bool)
    (hn : n ≤ characteristicLength) : flagAfterMemcpy o src n flag = flag := by
  unfold flagAfterMemcpy
  cases o with
  | none => rfl
  | some k =>
    have hk : ¬ (characteristicLength ≤ k ∧ k < n) := by omega
    simp [hk]

/-- Where the flag is not behind the array, no copy reaches it. -/
theorem flagAfterMemcpy_none (src : Nat → Nat) (n : Nat) (flag : Bool) :
    flagAfterMemcpy none src n flag = flag := rfl

/-- The responses are read off the BLE trace, so equal traces give equal
responses. -/
theorem responses_congr {s t : State} (e : s.ble = t.ble) : responses s = responses t := by
  simp [responses, e]

/-- One more `write` on the trace is one more response. -/
theorem responses_of_ble_write {s t : State} {hd : Nat} {bytes : List Nat}
    (e : t.ble = s.ble ++ [BleCall.write hd bytes]) : responses t = responses s ++ [bytes] := by
  simp [responses, e, List.filterMap_append]

/-- One pass of the loop body sends at most one response. -/
theorem responses_mainLoopIteration_le (h : GattHandles) (s : State) :
    (responses (mainLoopIteration h s)).length ≤ (responses s).length + 1 := by
  rcases mainLoopIteration_cases h s with ⟨_, e⟩ | ⟨_, _, _, c | c | c⟩
  · rw [e]; omega
  · rw [responses_of_ble_write c.2.2.2]; simp
  · rw [responses_of_ble_write c.2.2.2]; simp
  · rw [responses_congr c.2.2]; omega

/-- Once the flag is clear, further passes of the loop body change nothing. -/
theorem iterate_mainLoopIteration_of_clear (h : GattHandles) (n : Nat) (s : State)
    (hw : s.bleDataWritten = false) : (mainLoopIteration h)^[n] s = s := by
  induction n with
  | zero => rfl
  | succ n ih =>
    rw [Function.iterate_succ_apply]
    have e : mainLoopIteration h s = s := by simp [mainLoopIteration, hw]
    rw [e, ih]

/-- Every pass of the loop body leaves the flag clear. -/
theorem mainLoopIteration_clears (h : GattHandles) (s : State) :
    (mainLoopIteration h s).bleDataWritten = false := by
  rcases mainLoopIteration_cases h s with ⟨hw, e⟩ | ⟨_, hc, _⟩
  · rw [e]; exact hw
  · exact hc

/-- A pending `[1,1]`: the pass writes level 0 and sends `[1,1]`. -/
theorem mainLoopIteration_ledOn (h : GattHandles) (s : State) (hw : s.bleDataWritten = true)
    (hcode : s.bleCommandValue 0 = 1) (hfooter : s.bleCommandValue 1 = 1) :
    (mainLoopIteration h s).statusLed = 0 ∧
      (mainLoopIteration h s).ble =
        s.ble ++ [BleCall.write h.responseCharacteristic [1, 1]] := by
  rcases mainLoopIteration_cases h s with ⟨hf, _⟩ | ⟨_, _, _, c | c | c⟩
  · rw [hw] at hf; cases hf
  · exact c.2.2
  · rw [hcode] at c; exact absurd c.2.1 (by decide)
  · rcases c.1 with c1 | c1
    · exact absurd hfooter c1
    · exact absurd hcode c1.1

/-- A pending `[2,1]`: the pass writes level 1 and sends `[2,1]`. -/
theorem mainLoopIteration_ledOff (h : GattHandles) (s : State) (hw : s.bleDataWritten = true)
    (hcode : s.bleCommandValue 0 = 2) (hfooter : s.bleCommandValue 1 = 1) :
    (mainLoopIteration h s).statusLed = 1 ∧
      (mainLoopIteration h s).ble =
        s.ble ++ [BleCall.write h.responseCharacteristic [2, 1]] := by
  rcases mainLoopIteration_cases h s with ⟨hf, _⟩ | ⟨_, _, _, c | c | c⟩
  · rw [hw] at hf; cases hf
  · rw [hcode] at c; exact absurd c.2.1 (by decide)
  · exact c.2.2
  · rcases c.1 with c1 | c1
    · exact absurd hfooter c1
    · exact absurd hcode c1.2

/-- The LED, the BLE trace and the flag after a pass depend only on the LED, the
flag, the two bytes of the command and the BLE trace before it. -/
theorem mainLoopIteration_congr (h : GattHandles) (s t : State)
    (e1 : s.statusLed = t.statusLed) (e2 : s.bleDataWritten = t.bleDataWritten)
    (e30 : s.bleCommandValue 0 = t.bleCommandValue 0)
    (e31 : s.bleCommandValue 1 = t.bleCommandValue 1) (e4 : s.ble = t.ble) :
    (mainLoopIteration h s).statusLed = (mainLoopIteration h t).statusLed ∧
      (mainLoopIteration h s).ble = (mainLoopIteration h t).ble ∧
      (mainLoopIteration h s).bleDataWritten = (mainLoopIteration h t).bleDataWritten := by
  rcases mainLoopIteration_cases h s with ⟨hs, es⟩ | ⟨hs, fs, _, cs⟩ <;>
    rcases mainLoopIteration_cases h t with ⟨ht, et⟩ | ⟨ht, ft, _, ct⟩
  · rw [es, et]; exact ⟨e1, e4, e2⟩
  · rw [e2, ht] at hs; cases hs
  · rw [e2, ht] at hs; cases hs
  · refine ⟨?_, ?_, by rw [fs, ft]⟩
    · rw [e30, e31] at cs
      rcases cs with c | c | c <;> rcases ct with d | d | d
      · rw [c.2.2.1, d.2.2.1]
      · rw [c.2.1] at d; exact absurd d.2.1 (by decide)
      · rcases d.1 with d1 | d1
        · exact absurd c.1 d1
        · exact absurd c.2.1 d1.1
      · rw [c.2.1] at d; exact absurd d.2.1 (by decide)
      · rw [c.2.2.1, d.2.2.1]
      · rcases d.1 with d1 | d1
        · exact absurd c.1 d1
        · exact absurd c.2.1 d1.2
      · rcases c.1 with c1 | c1
        · exact absurd d.1 c1
        · exact absurd d.2.1 c1.1
      · rcases c.1 with c1 | c1
        · exact absurd d.1 c1
        · exact absurd d.2.1 c1.2
      · rw [c.2.1, d.2.1, e1]
    · rw [e30, e31] at cs
      rcases cs with c | c | c <;> rcases ct with d | d | d
      · rw [c.2.2.2, d.2.2.2, e4]
      · rw [c.2.1] at d; exact absurd d.2.1 (by decide)
      · rcases d.1 with d1 | d1
        · exact absurd c.1 d1
        · exact absurd c.2.1 d1.1
      · rw [c.2.1] at d; exact absurd d.2.1 (by decide)
      · rw [c.2.2.2, d.2.2.2, e4]
      · rcases d.1 with d1 | d1
        · exact absurd c.1 d1
        · exact absurd c.2.1 d1.2
      · rcases c.1 with c1 | c1
        · exact absurd d.1 c1
        · exact absurd d.2.1 c1.1
      · rcases c.1 with c1 | c1
        · exact absurd d.1 c1
        · exact absurd d.2.1 c1.2
      · rw [c.2.2, d.2.2, e4]

/-- A pass of the loop body leaves the command memory as it was. -/
theorem mainLoopIteration_bleCommandValue (h : GattHandles) (s : State) :
    (mainLoopIteration h s).bleCommandValue = s.bleCommandValue := by
  rcases mainLoopIteration_cases h s with ⟨_, e⟩ | ⟨_, _, m, _⟩
  · rw [e]
  · exact m

/-! ## The claims -/

/-- C1: with the command `[1,1]` pending, whatever the LED level was, one pass of
the loop body writes level 0 (LED lit) to the pin and makes exactly one call on
the BLE stack, a write of the bytes `[1,1]` to the response characteristic; so
exactly one response, `[1,1]`, is added. -/
theorem C1_led_on_command (h : GattHandles) (s : State)
    (hw : s.bleDataWritten = true)
    (hcode : s.bleCommandValue 0 = 1) (hfooter : s.bleCommandValue 1 = 1) :
    (mainLoopIteration h s).statusLed = ledOn ∧
      (mainLoopIteration h s).ble =
        s.ble ++ [BleCall.write h.responseCharacteristic
          [bleResponseLedOn, bleResponseConfirmationFooter]] ∧
      responses (mainLoopIteration h s) = responses s ++ [[1, 1]] := by
  have e : (mainLoopIteration h s).ble =
      s.ble ++ [BleCall.write h.responseCharacteristic [1, 1]] := by
    simp [mainLoopIteration, hw, hcode, hfooter, bleCommandFooterPosition, bleCommandFooter,
      bleCommandDataPosition, bleCommandLedOn, bleResponseLedOn, bleResponseConfirmationFooter]
  refine ⟨?_, e, responses_of_ble_write e⟩
  simp [mainLoopIteration, hw, hcode, hfooter, bleCommandFooterPosition, bleCommandFooter,
    bleCommandDataPosition, bleCommandLedOn, ledOn]

/-- Witness of C1 at LED level 1 (LED out) with `[1,1]` pending. -/
theorem C1_led_on_command_witness :
    (samplePending 1 1 1).bleDataWritten = true ∧
      (samplePending 1 1 1).bleCommandValue 0 = 1 ∧
      (samplePending 1 1 1).bleCommandValue 1 = 1 ∧
      (samplePending 1 1 1).statusLed = ledOff ∧
      (mainLoopIteration sampleHandles (samplePending 1 1 1)).statusLed = ledOn ∧
      (mainLoopIteration sampleHandles (samplePending 1 1 1)).ble =
        (samplePending 1 1 1).ble ++ [BleCall.write sampleHandles.responseCharacteristic
          [bleResponseLedOn, bleResponseConfirmationFooter]] ∧
      responses (mainLoopIteration sampleHandles (samplePending 1 1 1)) =
        responses (samplePending 1 1 1) ++ [[1, 1]] :=
  ⟨rfl, rfl, rfl, rfl, C1_led_on_command sampleHandles (samplePending 1 1 1) rfl rfl rfl⟩

/-- C2: with the command `[2,1]` pending, whatever the LED level was, one pass of
the loop body writes level 1 (LED out) to the pin and makes exactly one call on
the BLE stack, a write of the bytes `[2,1]` to the response characteristic; so
exactly one response, `[2,1]`, is added. -/
theorem C2_led_off_command (h : GattHandles) (s : State)
    (hw : s.bleDataWritten = true)
    (hcode : s.bleCommandValue 0 = 2) (hfooter : s.bleCommandValue 1 = 1) :
    (mainLoopIteration h s).statusLed = ledOff ∧
      (mainLoopIteration h s).ble =
        s.ble ++ [BleCall.write h.responseCharacteristic
          [bleResponseLedOff, bleResponseConfirmationFooter]] ∧
      responses (mainLoopIteration h s) = responses s ++ [[2, 1]] := by
  have e : (mainLoopIteration h s).ble =
      s.ble ++ [BleCall.write h.responseCharacteristic [2, 1]] := by
    simp [mainLoopIteration, hw, hcode, hfooter, bleCommandFooterPosition, bleCommandFooter,
      bleCommandDataPosition, bleCommandLedOn, bleCommandLedOff, bleResponseLedOff,
      bleResponseConfirmationFooter]
  refine ⟨?_, e, responses_of_ble_write e⟩
  simp [mainLoopIteration, hw, hcode, hfooter, bleCommandFooterPosition, bleCommandFooter,
    bleCommandDataPosition, bleCommandLedOn, bleCommandLedOff, ledOff]

/-- Witness of C2 at LED level 0 (LED lit) with `[2,1]` pending. -/
theorem C2_led_off_command_witness :
    (samplePending 0 2 1).bleDataWritten = true ∧
      (samplePending 0 2 1).bleCommandValue 0 = 2 ∧
      (samplePending 0 2 1).bleCommandValue 1 = 1 ∧
      (samplePending 0 2 1).statusLed = ledOn ∧
      (mainLoopIteration sampleHandles (samplePending 0 2 1)).statusLed = ledOff ∧
      (mainLoopIteration sampleHandles (samplePending 0 2 1)).ble =
        (samplePending 0 2 1).ble ++ [BleCall.write sampleHandles.responseCharacteristic
          [bleResponseLedOff, bleResponseConfirmationFooter]] ∧
      responses (mainLoopIteration sampleHandles (samplePending 0 2 1)) =
        responses (samplePending 0 2 1) ++ [[2, 1]] :=
  ⟨rfl, rfl, rfl, rfl, C2_led_off_command sampleHandles (samplePending 0 2 1) rfl rfl rfl⟩

/-- C3: with a pending command whose footer byte (index 1) is not 1, whatever its
code byte, one pass of the loop body leaves the LED level as it was and makes no
call on the BLE stack, so no response is sent. -/
theorem C3_bad_footer_dropped (h : GattHandles) (s : State)
    (hw : s.bleDataWritten = true) (hfooter : s.bleCommandValue 1 ≠ 1) :
    (mainLoopIteration h s).statusLed = s.statusLed ∧
      (mainLoopIteration h s).ble = s.ble ∧
      responses (mainLoopIteration h s) = responses s := by
  have e : (mainLoopIteration h s).ble = s.ble := by
    simp [mainLoopIteration, hw, hfooter, bleCommandFooterPosition, bleCommandFooter]
  refine ⟨?_, e, responses_congr e⟩
  simp [mainLoopIteration, hw, hfooter, bleCommandFooterPosition, bleCommandFooter]

/-- Witness of C3 at the pending command `[1,0]` (code LedOn, footer 0). -/
theorem C3_bad_footer_dropped_witness :
    (samplePending 1 1 0).bleDataWritten = true ∧
      (samplePending 1 1 0).bleCommandValue 0 = 1 ∧
      (samplePending 1 1 0).bleCommandValue 1 ≠ 1 ∧
      (mainLoopIteration sampleHandles (samplePending 1 1 0)).statusLed =
        (samplePending 1 1 0).statusLed ∧
      (mainLoopIteration sampleHandles (samplePending 1 1 0)).ble = (samplePending 1 1 0).ble ∧
      responses (mainLoopIteration sampleHandles (samplePending 1 1 0)) =
        responses (samplePending 1 1 0) :=
  ⟨rfl, rfl, by decide,
    C3_bad_footer_dropped sampleHandles (samplePending 1 1 0) rfl (by decide)⟩

/-- C4: with a pending command `[code,1]` whose code is neither 1 nor 2, one pass
of the loop body leaves the LED level as it was and makes no call on the BLE
stack, so no response is sent (no error response either). -/
theorem C4_unknown_code_dropped (h : GattHandles) (s : State)
    (hw : s.bleDataWritten = true) (hfooter : s.bleCommandValue 1 = 1)
    (hon : s.bleCommandValue 0 ≠ 1) (hoff : s.bleCommandValue 0 ≠ 2) :
    (mainLoopIteration h s).statusLed = s.statusLed ∧
      (mainLoopIteration h s).ble = s.ble ∧
      responses (mainLoopIteration h s) = responses s := by
  have e : (mainLoopIteration h s).ble = s.ble := by
    simp [mainLoopIteration, hw, hfooter, hon, hoff, bleCommandFooterPosition,
      bleCommandFooter, bleCommandDataPosition, bleCommandLedOn, bleCommandLedOff]
  refine ⟨?_, e, responses_congr e⟩
  simp [mainLoopIteration, hw, hfooter, hon, hoff, bleCommandFooterPosition,
    bleCommandFooter, bleCommandDataPosition, bleCommandLedOn, bleCommandLedOff]

/-- Witness of C4 at the pending command `[3,1]`. -/
theorem C4_unknown_code_dropped_witness :
    (samplePending 0 3 1).bleDataWritten = true ∧
      (samplePending 0 3 1).bleCommandValue 0 = 3 ∧
      (samplePending 0 3 1).bleCommandValue 1 = 1 ∧
      (mainLoopIteration sampleHandles (samplePending 0 3 1)).statusLed =
        (samplePending 0 3 1).statusLed ∧
      (mainLoopIteration sampleHandles (samplePending 0 3 1)).ble = (samplePending 0 3 1).ble ∧
      responses (mainLoopIteration sampleHandles (samplePending 0 3 1)) =
        responses (samplePending 0 3 1) :=
  ⟨rfl, rfl, rfl,
    C4_unknown_code_dropped sampleHandles (samplePending 0 3 1) rfl rfl (by decide) (by decide)⟩

/-- C5, as stated, fails: started from the state that `main` sets up, with both
writes processed, the LED levels before the first command, after `[1,1]` and
after `[2,1]` are not out, lit, out, because the pin is initialised to level 0,
which lights the LED. -/
theorem C5_trace_not_off_on_off :
    ¬ ([(mainStartup sampleInit flagBehindArray zeroRam).statusLed,
        (mainLoopIteration sampleHandles
          (onDataWrittenCallback sampleHandles (sampleWrite [1, 1] 1)
            (mainStartup sampleInit flagBehindArray zeroRam))).statusLed,
        (mainLoopIteration sampleHandles
          (onDataWrittenCallback sampleHandles (sampleWrite [2, 1] 1)
            (mainLoopIteration sampleHandles
              (onDataWrittenCallback sampleHandles (sampleWrite [1, 1] 1)
                (mainStartup sampleInit flagBehindArray zeroRam))))).statusLed]
          = [ledOff, ledOn, ledOff] ∧
       responses
        (mainLoopIteration sampleHandles
          (onDataWrittenCallback sampleHandles (sampleWrite [2, 1] 1)
            (mainLoopIteration sampleHandles
              (onDataWrittenCallback sampleHandles (sampleWrite [1, 1] 1)
                (mainStartup sampleInit flagBehindArray zeroRam)))))
          = [[1, 1], [2, 1]]) := by
  decide

/-- C5, amended: started from the state that `main` sets up, in any build,
writing `[1,1]`, processing, writing `[2,1]` and processing, where each write
callback returns with the pending flag still set, gives the LED levels 0 (lit)
at the start, 0 (lit) after the first command and 1 (out) after the second, and
the responses sent are exactly `[1,1]` followed by `[2,1]`.  What happens when
the copy of line 207 clears the flag is not stated here. -/
theorem C5_trace_on_on_off (h : GattHandles) (init : InitializationCompleteCallbackContext)
    (flagOffset : Option Nat) (ram : Nat → Nat) (a b : GattWriteCallbackParams)
    (ha : a.handle = h.commandCharacteristic) (hal : a.len = 2)
    (ha0 : a.data 0 = 1) (ha1 : a.data 1 = 1)
    (hb : b.handle = h.commandCharacteristic) (hbl : b.len = 2)
    (hb0 : b.data 0 = 2) (hb1 : b.data 1 = 1)
    (hfa : (onDataWrittenCallback h a (mainStartup init flagOffset ram)).bleDataWritten = true)
    (hfb : (onDataWrittenCallback h b (mainLoopIteration h
      (onDataWrittenCallback h a (mainStartup init flagOffset ram)))).bleDataWritten = true) :
    [(mainStartup init flagOffset ram).statusLed,
      (mainLoopIteration h
        (onDataWrittenCallback h a (mainStartup init flagOffset ram))).statusLed,
      (mainLoopIteration h (onDataWrittenCallback h b
        (mainLoopIteration h
          (onDataWrittenCallback h a (mainStartup init flagOffset ram))))).statusLed]
        = [ledOn, ledOn, ledOff] ∧
      responses (mainLoopIteration h (onDataWrittenCallback h b
        (mainLoopIteration h (onDataWrittenCallback h a (mainStartup init flagOffset ram)))))
        = [[1, 1], [2, 1]] := by
  have start_led : (mainStartup init flagOffset ram).statusLed = 0 := by
    unfold mainStartup onBluetoothInitialized
    simp only []
    split
    · rfl
    · split <;> rfl
  have start_responses : responses (mainStartup init flagOffset ram) = [] := by
    unfold mainStartup onBluetoothInitialized
    simp only []
    split
    · rfl
    · split <;> rfl
  have wa := onDataWrittenCallback_command h a (mainStartup init flagOffset ram) ha
  have fa := onDataWrittenCallback_frame h a (mainStartup init flagOffset ram)
  have ia := mainLoopIteration_ledOn h (onDataWrittenCallback h a (mainStartup init flagOffset ram))
    hfa (by rw [wa.2]; simp [memcpy, hal, ha0]) (by rw [wa.2]; simp [memcpy, hal, ha1])
  have wb := onDataWrittenCallback_command h b
    (mainLoopIteration h (onDataWrittenCallback h a (mainStartup init flagOffset ram))) hb
  have fb := onDataWrittenCallback_frame h b
    (mainLoopIteration h (onDataWrittenCallback h a (mainStartup init flagOffset ram)))
  have ib := mainLoopIteration_ledOff h (onDataWrittenCallback h b
    (mainLoopIteration h (onDataWrittenCallback h a (mainStartup init flagOffset ram)))) hfb
    (by rw [wb.2]; simp [memcpy, hbl, hb0]) (by rw [wb.2]; simp [memcpy, hbl, hb1])
  have ea : (mainLoopIteration h
      (onDataWrittenCallback h a (mainStartup init flagOffset ram))).ble =
      (mainStartup init flagOffset ram).ble ++
        [BleCall.write h.responseCharacteristic [1, 1]] := by
    rw [ia.2, fa.2]
  have eb : (mainLoopIteration h (onDataWrittenCallback h b
      (mainLoopIteration h
        (onDataWrittenCallback h a (mainStartup init flagOffset ram))))).ble =
      (mainLoopIteration h
        (onDataWrittenCallback h a (mainStartup init flagOffset ram))).ble ++
        [BleCall.write h.responseCharacteristic [2, 1]] := by
    rw [ib.2, fb.2]
  refine ⟨?_, ?_⟩
  · rw [start_led, ia.1, ib.1]; rfl
  · rw [responses_of_ble_write eb, responses_of_ble_write ea, start_responses]
    rfl

/-- Witness of the amended C5 in a build with the flag right behind the array,
where the byte after each written value is 1, so that both flags stay set. -/
theorem C5_trace_on_on_off_witness :
    (onDataWrittenCallback sampleHandles (sampleWrite [1, 1] 1)
        (mainStartup sampleInit flagBehindArray zeroRam)).bleDataWritten = true ∧
    (onDataWrittenCallback sampleHandles (sampleWrite [2, 1] 1)
        (mainLoopIteration sampleHandles (onDataWrittenCallback sampleHandles
          (sampleWrite [1, 1] 1)
          (mainStartup sampleInit flagBehindArray zeroRam)))).bleDataWritten = true ∧
    [(mainStartup sampleInit flagBehindArray zeroRam).statusLed,
      (mainLoopIteration sampleHandles (onDataWrittenCallback sampleHandles
        (sampleWrite [1, 1] 1) (mainStartup sampleInit flagBehindArray zeroRam))).statusLed,
      (mainLoopIteration sampleHandles (onDataWrittenCallback sampleHandles
        (sampleWrite [2, 1] 1)
        (mainLoopIteration sampleHandles (onDataWrittenCallback sampleHandles
          (sampleWrite [1, 1] 1)
          (mainStartup sampleInit flagBehindArray zeroRam))))).statusLed]
        = [ledOn, ledOn, ledOff] ∧
      responses (mainLoopIteration sampleHandles (onDataWrittenCallback sampleHandles
        (sampleWrite [2, 1] 1)
        (mainLoopIteration sampleHandles (onDataWrittenCallback sampleHandles
          (sampleWrite [1, 1] 1) (mainStartup sampleInit flagBehindArray zeroRam)))))
        = [[1, 1], [2, 1]] :=
  ⟨by decide, by decide,
    C5_trace_on_on_off sampleHandles sampleInit flagBehindArray zeroRam (sampleWrite [1, 1] 1)
      (sampleWrite [2, 1] 1) rfl rfl rfl rfl rfl rfl rfl rfl (by decide) (by decide)⟩

/-- C6: the code at short writes.  From the state reached after the command
`[2,1]` has been written and processed (LED out, command memory `[2,1]`):
a one-byte write `[1]` makes `memcpy` copy two bytes, so the footer byte of the
command is the byte that follows the written value in memory (1 in one run, 0
in the other); when that byte is 1 the next pass lights the LED and sends
`[1,1]`.  A write of no bytes copies nothing and sets the flag, so the next pass
runs the old command `[2,1]` again and sends `[2,1]`. -/
theorem C6_short_write_is_executed :
    (sampleWrite [1] 1).len = 1 ∧
    sizeofBleCommandValue * (sampleWrite [1] 1).len = 2 ∧
    (onDataWrittenCallback sampleHandles (sampleWrite [1] 1) stateAfterLedOff).bleCommandValue 1
      = 1 ∧
    (onDataWrittenCallback sampleHandles (sampleWrite [1] 0) stateAfterLedOff).bleCommandValue 1
      = 0 ∧
    stateAfterLedOff.statusLed = ledOff ∧
    (mainLoopIteration sampleHandles
      (onDataWrittenCallback sampleHandles (sampleWrite [1] 1) stateAfterLedOff)).statusLed
      = ledOn ∧
    responses (mainLoopIteration sampleHandles
      (onDataWrittenCallback sampleHandles (sampleWrite [1] 1) stateAfterLedOff))
      = responses stateAfterLedOff ++ [[1, 1]] ∧
    (sampleWrite [] 0).len = 0 ∧
    responses (mainLoopIteration sampleHandles
      (onDataWrittenCallback sampleHandles (sampleWrite [] 0) stateAfterLedOff))
      = responses stateAfterLedOff ++ [[2, 1]] := by
  decide

/-- C7: the code at a two-byte write of `[1,1]`, in a build with the flag right
behind the array, from the state reached after a processed `[2,1]` (LED out).
The write makes `memcpy` copy four bytes into the two-byte array.  When the byte
after the written value is 0, the copy clears the flag that line 206 has just
set: the command `[1,1]` sits in the command memory but the next pass does not
run it, so the LED stays out and no response is sent, the first time and the
second time.  When that byte is 1 the flag stays set. -/
theorem C7_led_on_write_dropped :
    (sampleWrite [1, 1] 0).len = 2 ∧
    sizeofBleCommandValue * (sampleWrite [1, 1] 0).len = 4 ∧
    characteristicLength = 2 ∧
    stateAfterLedOff.flagOffset = some 2 ∧
    stateAfterLedOff.statusLed = ledOff ∧
    (onDataWrittenCallback sampleHandles (sampleWrite [1, 1] 0) stateAfterLedOff).bleCommandValue 0
      = 1 ∧
    (onDataWrittenCallback sampleHandles (sampleWrite [1, 1] 0) stateAfterLedOff).bleCommandValue 1
      = 1 ∧
    (onDataWrittenCallback sampleHandles (sampleWrite [1, 1] 0) stateAfterLedOff).bleDataWritten
      = false ∧
    (mainLoopIteration sampleHandles
      (onDataWrittenCallback sampleHandles (sampleWrite [1, 1] 0) stateAfterLedOff)).statusLed
      = ledOff ∧
    responses (mainLoopIteration sampleHandles
      (onDataWrittenCallback sampleHandles (sampleWrite [1, 1] 0) stateAfterLedOff))
      = responses stateAfterLedOff ∧
    (mainLoopIteration sampleHandles
      (onDataWrittenCallback sampleHandles (sampleWrite [1, 1] 0)
        (mainLoopIteration sampleHandles
          (onDataWrittenCallback sampleHandles (sampleWrite [1, 1] 0)
            stateAfterLedOff)))).statusLed
      = ledOff ∧
    responses (mainLoopIteration sampleHandles
      (onDataWrittenCallback sampleHandles (sampleWrite [1, 1] 0)
        (mainLoopIteration sampleHandles
          (onDataWrittenCallback sampleHandles (sampleWrite [1, 1] 0) stateAfterLedOff))))
      = responses stateAfterLedOff ∧
    (onDataWrittenCallback sampleHandles (sampleWrite [1, 1] 1) stateAfterLedOff).bleDataWritten
      = true := by
  decide

/-- C8: from every state, the disconnection handler makes exactly one call on the
BLE stack, `startAdvertising` (so one more advertising request and no response),
and leaves the pending flag, the command memory and the LED level as they were. -/
theorem C8_disconnect_readvertises (s : State) :
    (onCentralDisconnected s).ble = s.ble ++ [BleCall.startAdvertising] ∧
      advertisingRequests (onCentralDisconnected s) = advertisingRequests s + 1 ∧
      responses (onCentralDisconnected s) = responses s ∧
      (onCentralDisconnected s).bleDataWritten = s.bleDataWritten ∧
      (onCentralDisconnected s).bleCommandValue = s.bleCommandValue ∧
      (onCentralDisconnected s).statusLed = s.statusLed := by
  refine ⟨rfl, ?_, ?_, rfl, rfl, rfl⟩
  · simp [advertisingRequests, onCentralDisconnected]
  · simp [responses, onCentralDisconnected, List.filterMap_append]

/-- C9: for two 2-byte writes `a` then `b` to the command characteristic with no
pass of the loop body between them, in any build: the two bytes of the command
are those of `b`; the flag, the LED and the BLE trace are what the write of `b`
alone leaves (the flag is set unless the copy of `b` reaches it with a zero
byte); the next pass gives the same LED level, the same calls on the BLE stack
(so the same responses), the same flag and the same command memory as if only
`b` had been written, and does what the loop body does from the state before
the writes with the bytes of `b` as the command; and the pass after that
changes nothing at all. -/
theorem C9_last_write_wins (h : GattHandles) (s : State) (a b : GattWriteCallbackParams)
    (ha : a.handle = h.commandCharacteristic) (hal : a.len = 2)
    (hb : b.handle = h.commandCharacteristic) (hbl : b.len = 2) :
    (onDataWrittenCallback h b (onDataWrittenCallback h a s)).bleCommandValue 0 = b.data 0 ∧
    (onDataWrittenCallback h b (onDataWrittenCallback h a s)).bleCommandValue 1 = b.data 1 ∧
    (onDataWrittenCallback h b (onDataWrittenCallback h a s)).bleDataWritten =
      flagAfterMemcpy s.flagOffset b.data 4 true ∧
    (onDataWrittenCallback h b (onDataWrittenCallback h a s)).bleDataWritten =
      (onDataWrittenCallback h b s).bleDataWritten ∧
    (onDataWrittenCallback h b (onDataWrittenCallback h a s)).statusLed = s.statusLed ∧
    (onDataWrittenCallback h b (onDataWrittenCallback h a s)).ble = s.ble ∧
    (mainLoopIteration h (onDataWrittenCallback h b (onDataWrittenCallback h a s))).statusLed =
      (mainLoopIteration h (onDataWrittenCallback h b s)).statusLed ∧
    (mainLoopIteration h (onDataWrittenCallback h b (onDataWrittenCallback h a s))).ble =
      (mainLoopIteration h (onDataWrittenCallback h b s)).ble ∧
    responses (mainLoopIteration h (onDataWrittenCallback h b (onDataWrittenCallback h a s))) =
      responses (mainLoopIteration h (onDataWrittenCallback h b s)) ∧
    (mainLoopIteration h
        (onDataWrittenCallback h b (onDataWrittenCallback h a s))).bleDataWritten =
      (mainLoopIteration h (onDataWrittenCallback h b s)).bleDataWritten ∧
    (mainLoopIteration h
        (onDataWrittenCallback h b (onDataWrittenCallback h a s))).bleCommandValue =
      (mainLoopIteration h (onDataWrittenCallback h b s)).bleCommandValue ∧
    (mainLoopIteration h (onDataWrittenCallback h b (onDataWrittenCallback h a s))).statusLed =
      (mainLoopIteration h
        { s with
          bleDataWritten := flagAfterMemcpy s.flagOffset b.data 4 true
          bleCommandValue := b.data }).statusLed ∧
    (mainLoopIteration h (onDataWrittenCallback h b (onDataWrittenCallback h a s))).ble =
      (mainLoopIteration h
        { s with
          bleDataWritten := flagAfterMemcpy s.flagOffset b.data 4 true
          bleCommandValue := b.data }).ble ∧
    mainLoopIteration h
        (mainLoopIteration h (onDataWrittenCallback h b (onDataWrittenCallback h a s))) =
      mainLoopIteration h (onDataWrittenCallback h b (onDataWrittenCallback h a s)) := by
  have wa := onDataWrittenCallback_command h a s ha
  have fa := onDataWrittenCallback_frame h a s
  have oa := onDataWrittenCallback_flagOffset h a s
  have wab := onDataWrittenCallback_command h b (onDataWrittenCallback h a s) hb
  have fab := onDataWrittenCallback_frame h b (onDataWrittenCallback h a s)
  have wb := onDataWrittenCallback_command h b s hb
  have fb := onDataWrittenCallback_frame h b s
  rw [oa, hbl] at wab
  rw [hbl] at wb
  have mem : (onDataWrittenCallback h b (onDataWrittenCallback h a s)).bleCommandValue =
      (onDataWrittenCallback h b s).bleCommandValue := by
    rw [wab.2, wb.2, wa.2, hal]
    funext i
    simp only [memcpy]
    split <;> rfl
  have m0 : (onDataWrittenCallback h b (onDataWrittenCallback h a s)).bleCommandValue 0 =
      b.data 0 := by
    rw [wab.2]; simp [memcpy]
  have m1 : (onDataWrittenCallback h b (onDataWrittenCallback h a s)).bleCommandValue 1 =
      b.data 1 := by
    rw [wab.2]; simp [memcpy]
  have fl : (onDataWrittenCallback h b (onDataWrittenCallback h a s)).bleDataWritten =
      (onDataWrittenCallback h b s).bleDataWritten := by
    rw [wab.1, wb.1]
  have c := mainLoopIteration_congr h
    (onDataWrittenCallback h b (onDataWrittenCallback h a s)) (onDataWrittenCallback h b s)
    (by rw [fab.1, fa.1, fb.1]) fl (by rw [mem]) (by rw [mem]) (by rw [fab.2, fa.2, fb.2])
  have d := mainLoopIteration_congr h
    (onDataWrittenCallback h b (onDataWrittenCallback h a s))
    { s with
      bleDataWritten := flagAfterMemcpy s.flagOffset b.data 4 true
      bleCommandValue := b.data }
    (by rw [fab.1, fa.1]) wab.1 m0 m1 (by rw [fab.2, fa.2])
  refine ⟨m0, m1, wab.1, fl, by rw [fab.1, fa.1], by rw [fab.2, fa.2], c.1, c.2.1,
    responses_congr c.2.1, c.2.2, ?_, d.1, d.2.1, ?_⟩
  · rw [mainLoopIteration_bleCommandValue, mainLoopIteration_bleCommandValue, mem]
  · exact iterate_mainLoopIteration_of_clear h 1 _ (mainLoopIteration_clears h _)

/-- Witness of C9 in a build with the flag right behind the array: `[1,1]` then
`[2,1]` written on a state with the LED lit and the bytes `[9,9]` pending; the
byte after `[2,1]` is 1, so the flag stays set, and the next pass runs `[2,1]`
only: the LED goes out and the one response is `[2,1]`. -/
theorem C9_last_write_wins_witness :
    (sampleWrite [1, 1] 5).len = 2 ∧ (sampleWrite [2, 1] 1).len = 2 ∧
    (onDataWrittenCallback sampleHandles (sampleWrite [2, 1] 1)
        (onDataWrittenCallback sampleHandles (sampleWrite [1, 1] 5)
          (samplePending 0 9 9))).bleCommandValue 0 = 2 ∧
    (onDataWrittenCallback sampleHandles (sampleWrite [2, 1] 1)
        (onDataWrittenCallback sampleHandles (sampleWrite [1, 1] 5)
          (samplePending 0 9 9))).bleCommandValue 1 = 1 ∧
    (onDataWrittenCallback sampleHandles (sampleWrite [2, 1] 1)
        (onDataWrittenCallback sampleHandles (sampleWrite [1, 1] 5)
          (samplePending 0 9 9))).bleDataWritten = true ∧
    (mainLoopIteration sampleHandles (onDataWrittenCallback sampleHandles (sampleWrite [2, 1] 1)
        (onDataWrittenCallback sampleHandles (sampleWrite [1, 1] 5)
          (samplePending 0 9 9)))).statusLed = ledOff ∧
    responses (mainLoopIteration sampleHandles (onDataWrittenCallback sampleHandles
        (sampleWrite [2, 1] 1) (onDataWrittenCallback sampleHandles (sampleWrite [1, 1] 5)
          (samplePending 0 9 9)))) = [[2, 1]] ∧
    (mainLoopIteration sampleHandles (onDataWrittenCallback sampleHandles (sampleWrite [2, 1] 1)
        (onDataWrittenCallback sampleHandles (sampleWrite [1, 1] 5)
          (samplePending 0 9 9)))).statusLed =
      (mainLoopIteration sampleHandles (onDataWrittenCallback sampleHandles
        (sampleWrite [2, 1] 1) (samplePending 0 9 9))).statusLed ∧
    responses (mainLoopIteration sampleHandles (onDataWrittenCallback sampleHandles
        (sampleWrite [2, 1] 1) (onDataWrittenCallback sampleHandles (sampleWrite [1, 1] 5)
          (samplePending 0 9 9)))) =
      responses (mainLoopIteration sampleHandles (onDataWrittenCallback sampleHandles
        (sampleWrite [2, 1] 1) (samplePending 0 9 9))) ∧
    mainLoopIteration sampleHandles
        (mainLoopIteration sampleHandles (onDataWrittenCallback sampleHandles
          (sampleWrite [2, 1] 1) (onDataWrittenCallback sampleHandles (sampleWrite [1, 1] 5)
            (samplePending 0 9 9)))) =
      mainLoopIteration sampleHandles (onDataWrittenCallback sampleHandles
        (sampleWrite [2, 1] 1) (onDataWrittenCallback sampleHandles (sampleWrite [1, 1] 5)
          (samplePending 0 9 9))) :=
  have w := C9_last_write_wins sampleHandles (samplePending 0 9 9) (sampleWrite [1, 1] 5)
    (sampleWrite [2, 1] 1) rfl rfl rfl rfl
  ⟨rfl, rfl, w.1, w.2.1, by decide, by decide, by decide, w.2.2.2.2.2.2.1,
    w.2.2.2.2.2.2.2.2.1, w.2.2.2.2.2.2.2.2.2.2.2.2.2⟩

/-- C10: from every state, after one pass of the loop body the pending flag is
false, whatever the command was; a pass that starts with the flag false returns
the state unchanged (LED, command memory, BLE trace and all); and after a single
write, any number of passes adds at most one response. -/
theorem C10_write_consumed_once (h : GattHandles) (s : State) :
    (mainLoopIteration h s).bleDataWritten = false ∧
      (s.bleDataWritten = false → mainLoopIteration h s = s) ∧
      (∀ (p : GattWriteCallbackParams) (n : Nat),
        (responses ((mainLoopIteration h)^[n] (onDataWrittenCallback h p s))).length ≤
          (responses s).length + 1) := by
  refine ⟨mainLoopIteration_clears h s, ?_, ?_⟩
  · intro hw
    exact iterate_mainLoopIteration_of_clear h 1 s hw
  · intro p n
    have fr := onDataWrittenCallback_frame h p s
    cases n with
    | zero =>
      rw [Function.iterate_zero_apply, responses_congr fr.2]
      omega
    | succ n =>
      rw [Function.iterate_succ_apply,
        iterate_mainLoopIteration_of_clear h n _ (mainLoopIteration_clears h _)]
      have le := responses_mainLoopIteration_le h (onDataWrittenCallback h p s)
      rw [responses_congr fr.2] at le
      exact le

/-- Witness of C10 at the state reached after a processed LedOff command, whose
flag is false. -/
theorem C10_write_consumed_once_witness :
    stateAfterLedOff.bleDataWritten = false ∧
      (mainLoopIteration sampleHandles stateAfterLedOff).bleDataWritten = false ∧
      (mainLoopIteration sampleHandles stateAfterLedOff).statusLed =
        stateAfterLedOff.statusLed ∧
      (mainLoopIteration sampleHandles stateAfterLedOff).ble = stateAfterLedOff.ble :=
  have w := C10_write_consumed_once sampleHandles stateAfterLedOff
  have e := w.2.1 (by decide)
  ⟨by decide, w.1, by rw [e], by rw [e]⟩

end RemoteLed
